import Mathlib

/-!
Verification development for the galwave FITS wavelet pipeline
(`src/wavelet.py`, class `FITSWaveletProcessor`).

The Python source is shallowly embedded below.  Floating-point samples are
modelled as exact rationals together with an explicit not-a-number marker
(`Sample.nan`); the base-10 logarithm of `numpy.log10` is kept abstract as a
function parameter `log10 : ℚ → ℚ`, since no verified property depends on its
values, and likewise the bilinear interpolation kernel of Pillow's
`Image.resize` is a parameter `interp`.  External write effects (FITS / PNG
file output) are modelled by boolean success oracles keyed by path, and the
sequence of attempted writes is recorded explicitly so that the control flow
of `_save_image`, `process_file` and `run_batch` can be stated and proved.
-/

namespace Galwave

/-- A floating-point sample of a raster band: either a finite value (modelled
as an exact rational) or a not-a-number marker. -/
inductive Sample where
  | fin (q : ℚ)
  | nan
deriving DecidableEq, Repr

/-- A raster band: a list of rows of samples (`numpy` 2D array). -/
abbrev Band := List (List Sample)

/-- Sanitization `np.nan_to_num(x, nan=0.0)` on one sample: not-a-number becomes `0`. -/
def Sample.toNum : Sample → ℚ
  | .fin q => q
  | .nan => 0

/-- Sanitization `np.nan_to_num(data, nan=0.0)` (line 49 of `wavelet.py`). -/
def nanToNum (b : Band) : List (List ℚ) := b.map (fun r => r.map Sample.toNum)

/-- Quantization `rescaled.astype(np.uint8)`: values are non-negative here, so
truncation toward zero is the floor. -/
def qfloorNat (q : ℚ) : Nat := (Int.floor q).toNat

/-- The log-compression step `np.log10(clean_data - np.min(clean_data) + 1.0)`
(line 53), given the already-computed minimum `m0` of the sanitized band. -/
def logBand (log10 : ℚ → ℚ) (m0 : ℚ) (band : Band) : List (List ℚ) :=
  (nanToNum band).map (fun r => r.map (fun x => log10 (x - m0 + 1)))

/-- The Range Normalizer of `_save_image` (lines 49-63 of `wavelet.py`):
sanitize NaNs, shift the minimum to `1.0`, apply the base-10 logarithm
(abstracted as `log10`), then either linearly rescale `[lo, hi]` to `[0, 255]`
when the log range exceeds `1e-6`, or emit all zeros, and quantize to 8-bit by
truncation.  `np.min` of an empty array raises, which is modelled by `none`. -/
def normalize (log10 : ℚ → ℚ) (band : Band) : Option (List (List Nat)) :=
  match ((nanToNum band).flatten).min? with
  | none => none
  | some m0 =>
    match ((logBand log10 m0 band).flatten).min?,
        ((logBand log10 m0 band).flatten).max? with
    | some dmin, some dmax =>
      if dmax - dmin > 1 / 1000000 then
        some ((logBand log10 m0 band).map (fun r => r.map
          (fun x => qfloorNat ((x - dmin) / (dmax - dmin) * 255))))
      else
        some ((logBand log10 m0 band).map (fun r => r.map (fun _ => 0)))
    | _, _ => none

/-- Shape (rows, columns) of an 8-bit image given as a list of rows. -/
def imgDims (m : List (List Nat)) : Nat × Nat := (m.length, (m.headD []).length)

/-- Modelled from Pillow's `Image.resize` (used at line 69 of `wavelet.py`):
when the requested size equals the image's current size, `resize` returns a
copy of the image unchanged (Pillow's documented fast path); otherwise the
BILINEAR interpolation kernel, abstracted here as `interp`, resamples the
image to the target shape. -/
def pilResize (interp : List (List Nat) → Nat × Nat → List (List Nat))
    (img : List (List Nat)) (target : Nat × Nat) : List (List Nat) :=
  if imgDims img = target then img else interp img target

/-! ## Decomposition Engine: `pywt.wavedec2` (line 91 of `wavelet.py`) -/

/-- Arithmetic on samples mirroring IEEE not-a-number propagation:
adding anything to a NaN yields NaN. -/
def Sample.add : Sample → Sample → Sample
  | .fin a, .fin b => .fin (a + b)
  | _, _ => .nan

/-- Scaling a sample by a finite filter coefficient; NaN propagates. -/
def Sample.smul (c : ℚ) : Sample → Sample
  | .fin a => .fin (c * a)
  | .nan => .nan

/-- Output length of one axis of a single-level DWT in pywt's default
"symmetric" signal extension mode: `floor((n + filter_len - 1) / 2)`. -/
def dwtOutLen (n f : Nat) : Nat := (n + f - 1) / 2

/-- pywt "symmetric" (half-sample symmetric) boundary extension: an arbitrary
integer index is folded into `[0, n)` by reflection without sample repetition
across the period `2 n` (`... x1 x0 | x0 x1 ... x_{n-1} | x_{n-1} ...`). -/
def symIndex (n : Nat) (i : Int) : Nat :=
  if n = 0 then 0
  else
    let m := (i % (2 * n : Nat)).toNat
    if m < n then m else 2 * n - 1 - m

/-- Build an `r × c` band from an entry function. -/
def mkMat (r c : Nat) (g : Nat → Nat → Sample) : Band :=
  (List.range r).map (fun i => (List.range c).map (fun j => g i j))

/-- Shape `(rows, columns)` of a band, as numpy's `data.shape`. -/
def dims (m : Band) : Nat × Nat := (m.length, (m.headD []).length)

/-- Entry access with an irrelevant default (all accesses below are
in-bounds thanks to `symIndex`). -/
def entry (m : Band) (i j : Nat) : Sample := (m.getD i []).getD j .nan

/-- One output entry of a separable 2D filtering-and-downsampling step: the
row filter `fr` and column filter `fc` applied around output position
`(i, j)`, with pywt's symmetric boundary extension, downsampled by 2. -/
def convSep (fr fc : List ℚ) (m : Band) (i j : Nat) : Sample :=
  (List.range fr.length).foldr
    (fun p acc =>
      Sample.add
        ((List.range fc.length).foldr
          (fun q acc2 =>
            Sample.add
              (Sample.smul (fr.getD p 0 * fc.getD q 0)
                (entry m (symIndex (dims m).1 ((2 * i + 1 : Int) - p))
                  (symIndex (dims m).2 ((2 * j + 1 : Int) - q))))
              acc2)
          (Sample.fin 0))
        acc)
    (Sample.fin 0)

/-- One level of the 2D DWT (`pywt.dwt2`): the approximation `cA` and the
three orientation details `(cH, cV, cD)`.  pywt's decomposition low- and
high-pass filters always have equal length, so all four sub-bands share the
shape `(dwtOutLen rows, dwtOutLen cols)`. -/
def dwt2 (lo hi : List ℚ) (m : Band) : Band × Band × Band × Band :=
  let r2 := dwtOutLen (dims m).1 lo.length
  let c2 := dwtOutLen (dims m).2 lo.length
  (mkMat r2 c2 (convSep lo lo m),
   mkMat r2 c2 (convSep hi lo m),
   mkMat r2 c2 (convSep lo hi m),
   mkMat r2 c2 (convSep hi hi m))

/-- The multi-level transform `pywt.wavedec2`: apply `dwt2` recursively `level` times to the running
approximation; the result is the final approximation together with the detail
triples ordered from coarsest to finest, exactly as in pywt's returned list
`[cA_L, (cH_L, cV_L, cD_L), ..., (cH_1, cV_1, cD_1)]`. -/
def wavedec2 (lo hi : List ℚ) : Nat → Band → Band × List (Band × Band × Band)
  | 0, m => (m, [])
  | l + 1, m =>
    let s := dwt2 lo hi m
    let rest := wavedec2 lo hi l s.1
    (rest.1, rest.2 ++ [(s.2.1, s.2.2.1, s.2.2.2)])

/-- Fuel-based floor base-2 logarithm (structurally recursive, so that the
kernel can evaluate it on concrete inputs; shown equal to `Nat.log 2` below). -/
def log2floorAux : Nat → Nat → Nat
  | 0, _ => 0
  | fuel + 1, n => if n ≤ 1 then 0 else log2floorAux fuel (n / 2) + 1

/-- Floor base-2 logarithm, `log2floor n = Nat.log 2 n`. -/
def log2floor (n : Nat) : Nat := log2floorAux n n

/-- Maximal useful level `pywt.dwt_max_level(data_len, filt_len)`, i.e.
`floor(log2(data_len / (filt_len - 1)))`, clamped at 0. -/
def dwtMaxLevel (n f : Nat) : Nat := if f ≤ 1 then 0 else log2floor (n / (f - 1))

/-- Decomposition filter pairs `(dec_lo, dec_hi)` of the pywt builtin wavelets
this model recognizes; names outside pywt's builtin list map to `none`, which
mirrors pywt raising `ValueError("Unknown wavelet name ...")` at line 91.
Coefficients are the exact dyadic rationals of the `haar` and `bior3.3`
filter banks; the common normalization factor `sqrt 2` is omitted, since no
verified property depends on the coefficient amplitude, and `bior3.3`'s
high-pass filter is zero-padded to the common `dec_len` 8 as in pywt. -/
def waveletFilters (w : String) : Option (List ℚ × List ℚ) :=
  if w = "haar" then some ([1, 1], [-1, 1])
  else if w = "bior3.3" then
    some ([3/64, -9/64, -7/64, 45/64, 45/64, -7/64, -9/64, 3/64],
      [0, 0, -1/8, 3/8, -3/8, 1/8, 0, 0])
  else none

/-- Result of `pywt.wavedec2` as consumed by `process_file`: one approximation
band, the detail triples from coarsest to finest, and whether pywt emitted the
"level is too high" `UserWarning` — which line 12 of `wavelet.py` suppresses,
so it is recorded here but never turned into an error. -/
structure DecResult where
  approx : Band
  details : List (Band × Band × Band)
  warned : Bool
deriving DecidableEq

/-- Checked entry point `pywt.wavedec2(data, wavelet, level)` including its error behavior: an
unrecognized wavelet name raises `ValueError`; a level exceeding
`dwt_max_level` only warns (suppressed) and the transform still runs. -/
def wavedec2E (w : String) (level : Nat) (m : Band) : Except String DecResult :=
  match waveletFilters w with
  | none => Except.error ("Unknown wavelet name " ++ w)
  | some fp =>
    let res := wavedec2 fp.1 fp.2 level m
    Except.ok
      ⟨res.1, res.2,
        if dwtMaxLevel (min (dims m).1 (dims m).2) fp.1.length < level then true
        else false⟩

/-- Shape of one axis after `k` single-level DWT steps with filter length `f`. -/
def lenIter (f : Nat) : Nat → Nat → Nat
  | 0, n => n
  | k + 1, n => lenIter f k (dwtOutLen n f)

/-- Shape of a band after `k` single-level DWT steps. -/
def shapeIter (f : Nat) (k : Nat) (p : Nat × Nat) : Nat × Nat :=
  (lenIter f k p.1, lenIter f k p.2)

/-! ## FITS files and the Batch Orchestrator (`process_file`, `run_batch`) -/

/-- The opaque astronomical metadata blob of an HDU (`astropy` header),
modelled as key-value pairs. -/
abbrev Header := List (String × String)

/-- Raster data of an HDU: 2-dimensional, or higher-dimensional (a stack of
2D planes, covering the `data.ndim > 2` branch of line 83). -/
inductive NDData where
  | d2 (b : Band)
  | d3 (planes : List Band)
deriving DecidableEq

/-- One HDU of a FITS file: optional data plus a header. -/
structure FileHDU where
  data : Option NDData
  header : Header
deriving DecidableEq

/-- A successfully opened FITS file: its list of HDUs. -/
structure FitsFile where
  hdus : List FileHDU
deriving DecidableEq

/-- Lines 78-80 of `wavelet.py`:
`data = hdul[0].data if hdul[0].data is not None else hdul[1].data` and
`header = hdul[0].header.copy()`.  A missing HDU index raises `IndexError`
("list index out of range"), modelled as `Except.error`. -/
def loadData (f : FitsFile) : Except String (Option NDData × Header) :=
  match f.hdus.get? 0 with
  | none => Except.error "list index out of range"
  | some h0 =>
    match h0.data with
    | some d => Except.ok (some d, h0.header)
    | none =>
      match f.hdus.get? 1 with
      | none => Except.error "list index out of range"
      | some h1 => Except.ok (h1.data, h0.header)

/-- Line 83: `if data.ndim > 2: data = data[0, :, :]` — collapse
higher-dimensional data to its first 2D plane (an empty stack raises). -/
def collapse2D : NDData → Except String Band
  | .d2 b => Except.ok b
  | .d3 planes =>
    match planes.get? 0 with
    | none => Except.error "index 0 is out of bounds for axis 0 with size 0"
    | some b => Except.ok b

/-- Which of the two artifacts of a band a write event concerns. -/
inductive WriteKind where
  | fits
  | png
deriving DecidableEq

/-- One attempted file write of the Dual-Format Persister: its path, which
artifact it is, whether the underlying write succeeded, the metadata header
attached (`some` exactly for FITS writes) and the 8-bit pixel data written
(`some` exactly for successful PNG writes). -/
structure WriteEvent where
  path : String
  kind : WriteKind
  ok : Bool
  hdr : Option Header
  pix : Option (List (List Nat))
deriving DecidableEq

/-- Result of one `_save_image` call: the writes attempted in order, the
error message printed by the `except` clause (`none` when no exception was
raised — note the exception is only printed, never re-raised), and the disk
contents after the call (paths of files present). -/
structure SaveOutcome where
  events : List WriteEvent
  printed : Option String
  disk : List String
deriving DecidableEq

/-- The Dual-Format Persister `_save_image(data, path_prefix, header, resize_to)` (lines 37-74 of
`wavelet.py`).  Both writes live in a single `try` block: the FITS write is
attempted first; only if it succeeds is the PNG prepared
(`normalize`, then Pillow `resize` to `resize_to`) and written.  Any raised
exception — a failed FITS write, `np.min` on an empty band, or a failed PNG
write — is caught by the `except` clause, printed, and swallowed: the
function always returns normally.  The success of the underlying writes is
supplied by the oracles `fitsOk` and `pngOk`, keyed by path. -/
def saveImage (fitsOk pngOk : String → Bool) (log10 : ℚ → ℚ)
    (interp : List (List Nat) → Nat × Nat → List (List Nat))
    (band : Band) (pfxPath : String) (hdr : Header) (resizeTo : Nat × Nat)
    (disk : List String) : SaveOutcome :=
  let fitsPath := pfxPath ++ ".fits"
  let pngPath := pfxPath ++ ".png"
  if fitsOk fitsPath then
    let afterFits := fitsPath :: disk
    let evFits : WriteEvent := ⟨fitsPath, .fits, true, some hdr, none⟩
    match normalize log10 band with
    | none =>
      ⟨[evFits], some "zero-size array to reduction operation minimum", afterFits⟩
    | some img =>
      let resized := pilResize interp img resizeTo
      if pngOk pngPath then
        ⟨[evFits, ⟨pngPath, .png, true, none, some resized⟩], none,
          pngPath :: afterFits⟩
      else
        ⟨[evFits, ⟨pngPath, .png, false, none, none⟩],
          some "could not write png", afterFits⟩
  else
    ⟨[⟨fitsPath, .fits, false, some hdr, none⟩], some "could not write fits", disk⟩

/-- The per-band save plan of lines 98-104: Python's
`for i, (h, v, d) in enumerate(coeffs[1:])` with
`level_idx = self.level - i`, producing the three paths
`L{level_idx}_horizontal` / `_vertical` / `_diagonal` per triple. -/
def detailPlan (folder : String) (level : Nat) :
    Nat → List (Band × Band × Band) → List (String × Band)
  | _, [] => []
  | i, t :: rest =>
    let base := folder ++ "/L" ++ toString (level - i)
    (base ++ "_horizontal", t.1) ::
    (base ++ "_vertical", t.2.1) ::
    (base ++ "_diagonal", t.2.2) ::
    detailPlan folder level (i + 1) rest

/-- The full save plan of a file (lines 94-104): the approximation band under
`<name>_core_approx` first, then the detail triples from coarsest to finest. -/
def savePlan (outDir name : String) (level : Nat)
    (approx : Band) (details : List (Band × Band × Band)) :
    List (String × Band) :=
  let folder := outDir ++ "/" ++ name
  (folder ++ "/" ++ name ++ "_core_approx", approx) ::
  detailPlan folder level 0 details

/-- Run `_save_image` over a save plan in order, threading the disk state and
concatenating the write events.  Every entry is processed: `_save_image`
never raises, so no failure aborts the loop. -/
def runSaves (fitsOk pngOk : String → Bool) (log10 : ℚ → ℚ)
    (interp : List (List Nat) → Nat × Nat → List (List Nat))
    (hdr : Header) (resizeTo : Nat × Nat) :
    List (String × Band) → List String → List WriteEvent × List String
  | [], disk => ([], disk)
  | pb :: rest, disk =>
    let o := saveImage fitsOk pngOk log10 interp pb.2 pb.1 hdr resizeTo disk
    let r := runSaves fitsOk pngOk log10 interp hdr resizeTo rest o.disk
    (o.events ++ r.1, r.2)

/-- The part of `process_file` that can raise (lines 78-91): open the file,
select the raster and header, collapse to 2D, decompose.  `Except.error e`
models an exception reaching the file-level `except` clause; `Except.ok none`
models the normal-return path `return False, "FITS vazio"` (data absent). -/
def stage1 (wavelet : String) (level : Nat)
    (openResult : Except String FitsFile) :
    Except String (Option (Header × Band × DecResult)) :=
  match openResult with
  | Except.error e => Except.error e
  | Except.ok f =>
    match loadData f with
    | Except.error e => Except.error e
    | Except.ok ld =>
      match ld.1 with
      | none => Except.ok none
      | some nd =>
        match collapse2D nd with
        | Except.error e => Except.error e
        | Except.ok b =>
          match wavedec2E wavelet level b with
          | Except.error e => Except.error e
          | Except.ok dec => Except.ok (some (ld.2, b, dec))

/-- Observable result of `process_file`: the returned `(bool, message)` pair,
the list of `_save_image` calls (path prefix and band, in order), all write
events, and the final disk contents. -/
structure ProcResult where
  ok : Bool
  msg : String
  calls : List (String × Band)
  events : List WriteEvent
  disk : List String

/-- The per-file orchestrator `process_file(filepath)` (lines 76-109 of `wavelet.py`).  Any exception
in the load/decompose stage is caught at the file boundary and returned as
`(False, str(e))`; absent data returns `(False, "FITS vazio")`; otherwise
every band of the decomposition is passed to `_save_image` with the primary
HDU's header and `resize_to = orig_shape`, and the function returns
`(True, "Sucesso")` regardless of individual write failures, which
`_save_image` already swallowed. -/
def processFile (fitsOk pngOk : String → Bool) (log10 : ℚ → ℚ)
    (interp : List (List Nat) → Nat × Nat → List (List Nat))
    (wavelet : String) (level : Nat) (outDir : String)
    (openResult : Except String FitsFile) (name : String) : ProcResult :=
  match stage1 wavelet level openResult with
  | Except.error e => ⟨false, e, [], [], []⟩
  | Except.ok none => ⟨false, "FITS vazio", [], [], []⟩
  | Except.ok (some t) =>
    let origShape := dims t.2.1
    let plan := savePlan outDir name level t.2.2.approx t.2.2.details
    let res := runSaves fitsOk pngOk log10 interp t.1 origShape plan []
    ⟨true, "Sucesso", plan, res.1, res.2⟩

/-- The batch driver `run_batch` (lines 111-119): sequentially process every discovered file,
reporting the per-file `(success, message)` outcome; a file's failure never
aborts the iteration. -/
def runBatch (fitsOk pngOk : String → Bool) (log10 : ℚ → ℚ)
    (interp : List (List Nat) → Nat × Nat → List (List Nat))
    (wavelet : String) (level : Nat) (outDir : String)
    (files : List (String × Except String FitsFile)) :
    List (String × Bool × String) :=
  files.map (fun p =>
    let r := processFile fitsOk pngOk log10 interp wavelet level outDir p.2 p.1
    (p.1, r.ok, r.msg))

/-! ## Helper lemmas -/

lemma log2floorAux_eq_log (fuel : Nat) :
    ∀ n : Nat, n ≤ fuel → log2floorAux fuel n = Nat.log 2 n := by
  induction fuel with
  | zero =>
    intro n hn
    interval_cases n
    simp [log2floorAux]
  | succ fuel ih =>
    intro n hn
    by_cases h1 : n ≤ 1
    · interval_cases n <;> simp [log2floorAux, Nat.log_one_right]
    · have h2 : 2 ≤ n := by omega
      have hdiv : n / 2 ≤ fuel := by omega
      have hpos : 0 < Nat.log 2 n := Nat.log_pos (by norm_num) h2
      have := Nat.log_div_base 2 n
      simp only [log2floorAux, if_neg h1, ih (n / 2) hdiv]
      omega

lemma log2floor_eq_log (n : Nat) : log2floor n = Nat.log 2 n :=
  log2floorAux_eq_log n n le_rfl

lemma exists_min?_of_ne_nil (l : List ℚ) (h : l ≠ []) :
    ∃ a, l.min? = some a ∧ a ∈ l ∧ ∀ b ∈ l, a ≤ b := by
  cases hm : l.min? with
  | none => exact absurd (List.min?_eq_none_iff.1 hm) h
  | some a =>
    refine ⟨a, rfl, List.min?_mem (fun x y => min_choice x y) hm, fun b hb => ?_⟩
    exact (List.le_min?_iff (fun x y z => le_min_iff) hm).1 le_rfl b hb

lemma exists_max?_of_ne_nil (l : List ℚ) (h : l ≠ []) :
    ∃ a, l.max? = some a ∧ a ∈ l ∧ ∀ b ∈ l, b ≤ a := by
  cases hm : l.max? with
  | none => exact absurd (List.max?_eq_none_iff.1 hm) h
  | some a =>
    refine ⟨a, rfl, List.max?_mem (fun x y => max_choice x y) hm, fun b hb => ?_⟩
    exact (List.max?_le_iff (fun x y z => max_le_iff) hm).1 le_rfl b hb

lemma flatten_map_map {α β : Type} (f : α → β) (l : List (List α)) :
    (l.map (fun r => r.map f)).flatten = l.flatten.map f := by
  induction l with
  | nil => rfl
  | cons r rest ih =>
    simp only [List.map_cons, List.flatten_cons, List.map_append, ih]

lemma map_length_map {α β : Type} (f : α → β) (l : List (List α)) :
    (l.map (fun r => r.map f)).map List.length = l.map List.length := by
  induction l with
  | nil => rfl
  | cons r rest ih => simp only [List.map_cons, List.length_map, ih]

lemma map_zero_map {α β : Type} (f : α → β) (l : List (List α)) :
    (l.map (fun r => r.map f)).map (fun r => r.map (fun _ => (0 : Nat))) =
      l.map (fun r => r.map (fun _ => (0 : Nat))) := by
  induction l with
  | nil => rfl
  | cons r rest ih =>
    simp only [List.map_cons, List.map_map, ih]
    rfl

lemma flatten_logBand (log10 : ℚ → ℚ) (m0 : ℚ) (band : Band) :
    (logBand log10 m0 band).flatten =
      (nanToNum band).flatten.map (fun x => log10 (x - m0 + 1)) :=
  flatten_map_map _ _

/-! ## C7: the Spatial Resampler is the identity on matching shapes -/

/-- C7: For every image, resampling it to a `target_shape` equal to its own
current shape returns an image equal to the input — `resample` is the
identity on matching shapes and does not distort the pixel values
(Pillow's `Image.resize` fast path, used at line 69 of `wavelet.py`). -/
theorem claim_C7_resample_identity
    (interp : List (List Nat) → Nat × Nat → List (List Nat))
    (img : List (List Nat)) :
    pilResize interp img (imgDims img) = img := by
  simp [pilResize]

/-! ## C5: the Range Normalizer is total with 8-bit output -/

/-- C5: For every non-empty input band, whether its samples are finite or
not-a-number markers, `normalize` succeeds (no failure path) and returns an
array of integer values each lying in `[0, 255]` (the codomain is `Nat`, so
the lower bound is implicit), of the same shape as the input band. -/
theorem claim_C5_normalize_total (log10 : ℚ → ℚ) (band : Band)
    (h : band.flatten ≠ []) :
    ∃ img, normalize log10 band = some img ∧
      img.map List.length = band.map List.length ∧
      ∀ p ∈ img.flatten, p ≤ 255 := by
  have hclean : (nanToNum band).flatten = band.flatten.map Sample.toNum :=
    flatten_map_map _ _
  have h1 : (nanToNum band).flatten ≠ [] := by
    rw [hclean]; simpa using h
  obtain ⟨m0, hm0, -, -⟩ := exists_min?_of_ne_nil _ h1
  have h2 : (logBand log10 m0 band).flatten ≠ [] := by
    rw [flatten_logBand]; simpa using h1
  obtain ⟨dmin, hdmin, -, hminle⟩ := exists_min?_of_ne_nil _ h2
  obtain ⟨dmax, hdmax, -, hlemax⟩ := exists_max?_of_ne_nil _ h2
  unfold normalize
  simp only [hm0, hdmin, hdmax]
  by_cases hc : dmax - dmin > 1 / 1000000
  · rw [if_pos hc]
    refine ⟨_, rfl, ?_, ?_⟩
    · simp only [logBand, nanToNum, map_length_map]
    · intro p hp
      rw [flatten_map_map] at hp
      obtain ⟨x, hx, hpx⟩ := List.mem_map.1 hp
      have hxmin : dmin ≤ x := hminle x hx
      have hxmax : x ≤ dmax := hlemax x hx
      have hpos : (0 : ℚ) < dmax - dmin := by
        have : (0 : ℚ) < 1 / 1000000 := by norm_num
        linarith
      have hratio : (x - dmin) / (dmax - dmin) ≤ 1 := by
        rw [div_le_one hpos]; linarith
      have hle : (x - dmin) / (dmax - dmin) * 255 ≤ 255 := by
        calc (x - dmin) / (dmax - dmin) * 255 ≤ 1 * 255 := by
              apply mul_le_mul_of_nonneg_right hratio; norm_num
          _ = 255 := by norm_num
      have hfl : (Int.floor ((x - dmin) / (dmax - dmin) * 255)) ≤ 255 := by
        calc Int.floor ((x - dmin) / (dmax - dmin) * 255)
            ≤ Int.floor ((255 : ℚ)) := Int.floor_le_floor hle
          _ = 255 := by norm_num
      rw [← hpx]
      unfold qfloorNat
      omega
  · rw [if_neg hc]
    refine ⟨_, rfl, ?_, ?_⟩
    · simp only [logBand, nanToNum, map_length_map]
    · intro p hp
      rw [flatten_map_map] at hp
      obtain ⟨x, hx, hpx⟩ := List.mem_map.1 hp
      omega

/-- Witness for C5 at a concrete input. -/
theorem claim_C5_witness :
    ([[Sample.fin 5]] : Band).flatten ≠ [] ∧
    ∃ img, normalize (fun q => q) [[Sample.fin 5]] = some img ∧
      img.map List.length = ([[Sample.fin 5]] : Band).map List.length ∧
      ∀ p ∈ img.flatten, p ≤ 255 :=
  ⟨by decide, claim_C5_normalize_total (fun q => q) [[Sample.fin 5]] (by decide)⟩

/-! ## C6: the Range Normalizer on constant bands -/

/-- C6: For every non-empty band whose samples are all equal, `normalize`
returns an all-zero image of the same shape as the band, as a normal result
(the degenerate-log-range branch of lines 55-60), not an error. -/
theorem claim_C6_normalize_constant (log10 : ℚ → ℚ) (band : Band)
    (hne : band.flatten ≠ [])
    (hconst : ∀ a ∈ band.flatten, ∀ b ∈ band.flatten, a = b) :
    normalize log10 band = some (band.map (fun r => r.map (fun _ => 0))) := by
  have hclean : (nanToNum band).flatten = band.flatten.map Sample.toNum :=
    flatten_map_map _ _
  have h1 : (nanToNum band).flatten ≠ [] := by
    rw [hclean]; simpa using hne
  have hcconst : ∀ a ∈ (nanToNum band).flatten, ∀ b ∈ (nanToNum band).flatten,
      a = b := by
    rw [hclean]
    intro a ha b hb
    obtain ⟨sa, hsa, rfl⟩ := List.mem_map.1 ha
    obtain ⟨sb, hsb, rfl⟩ := List.mem_map.1 hb
    rw [hconst sa hsa sb hsb]
  obtain ⟨m0, hm0, hm0mem, -⟩ := exists_min?_of_ne_nil _ h1
  have hlconst : ∀ x ∈ (logBand log10 m0 band).flatten, x = log10 1 := by
    rw [flatten_logBand]
    intro x hx
    obtain ⟨y, hy, rfl⟩ := List.mem_map.1 hx
    rw [hcconst y hy m0 hm0mem]
    norm_num
  have h2 : (logBand log10 m0 band).flatten ≠ [] := by
    rw [flatten_logBand]; simpa using h1
  obtain ⟨dmin, hdmin, hdminmem, -⟩ := exists_min?_of_ne_nil _ h2
  obtain ⟨dmax, hdmax, hdmaxmem, -⟩ := exists_max?_of_ne_nil _ h2
  have hdmin1 : dmin = log10 1 := hlconst _ hdminmem
  have hdmax1 : dmax = log10 1 := hlconst _ hdmaxmem
  unfold normalize
  simp only [hm0, hdmin, hdmax]
  rw [if_neg (by rw [hdmin1, hdmax1]; norm_num)]
  simp only [logBand, nanToNum, map_zero_map]

/-- Witness for C6 at a concrete input. -/
theorem claim_C6_witness :
    normalize (fun q => q) [[Sample.fin 7, Sample.fin 7], [Sample.fin 7, Sample.fin 7]] =
      some [[0, 0], [0, 0]] :=
  claim_C6_normalize_constant (fun q => q) _ (by decide) (by decide)

/-! ## Persister and orchestrator control-flow lemmas -/

/-- The bands of the detail triples, flattened in save order
(horizontal, vertical, diagonal per triple). -/
def flattenTriples : List (Band × Band × Band) → List Band
  | [] => []
  | t :: rest => t.1 :: t.2.1 :: t.2.2 :: flattenTriples rest

lemma detailPlan_length (folder : String) (level : Nat) :
    ∀ (i : Nat) (ts : List (Band × Band × Band)),
      (detailPlan folder level i ts).length = 3 * ts.length := by
  intro i ts
  induction ts generalizing i with
  | nil => rfl
  | cons t rest ih =>
    simp only [detailPlan, List.length_cons, ih]
    omega

lemma detailPlan_bands (folder : String) (level : Nat) :
    ∀ (i : Nat) (ts : List (Band × Band × Band)),
      (detailPlan folder level i ts).map (fun pb => pb.2) = flattenTriples ts := by
  intro i ts
  induction ts generalizing i with
  | nil => rfl
  | cons t rest ih =>
    simp only [detailPlan, List.map_cons, ih, flattenTriples]

lemma saveImage_one_fits (fitsOk pngOk : String → Bool) (log10 : ℚ → ℚ)
    (interp : List (List Nat) → Nat × Nat → List (List Nat))
    (band : Band) (pfxPath : String) (hdr : Header) (resizeTo : Nat × Nat)
    (disk : List String) :
    ((saveImage fitsOk pngOk log10 interp band pfxPath hdr resizeTo disk).events.filter
      (fun e => decide (e.kind = WriteKind.fits))).length = 1 := by
  simp only [saveImage]
  split
  · split
    · simp
    · split
      · simp
      · simp
  · simp

lemma saveImage_fits_hdr (fitsOk pngOk : String → Bool) (log10 : ℚ → ℚ)
    (interp : List (List Nat) → Nat × Nat → List (List Nat))
    (band : Band) (pfxPath : String) (hdr : Header) (resizeTo : Nat × Nat)
    (disk : List String) (ev : WriteEvent)
    (hm : ev ∈ (saveImage fitsOk pngOk log10 interp band pfxPath hdr
      resizeTo disk).events)
    (hk : ev.kind = WriteKind.fits) : ev.hdr = some hdr := by
  simp only [saveImage] at hm
  split at hm
  · split at hm
    · simp at hm
      subst hm; rfl
    · split at hm <;>
      · simp at hm
        rcases hm with hm | hm
        · subst hm; rfl
        · subst hm; simp at hk
  · simp at hm
    subst hm; rfl

lemma runSaves_filter_fits (fitsOk pngOk : String → Bool) (log10 : ℚ → ℚ)
    (interp : List (List Nat) → Nat × Nat → List (List Nat))
    (hdr : Header) (resizeTo : Nat × Nat) :
    ∀ (plan : List (String × Band)) (disk : List String),
      ((runSaves fitsOk pngOk log10 interp hdr resizeTo plan disk).1.filter
        (fun e => decide (e.kind = WriteKind.fits))).length = plan.length := by
  intro plan
  induction plan with
  | nil => intro disk; rfl
  | cons pb rest ih =>
    intro disk
    simp only [runSaves, List.filter_append, List.length_append, ih,
      saveImage_one_fits, List.length_cons]
    omega

lemma runSaves_fits_hdr (fitsOk pngOk : String → Bool) (log10 : ℚ → ℚ)
    (interp : List (List Nat) → Nat × Nat → List (List Nat))
    (hdr : Header) (resizeTo : Nat × Nat) :
    ∀ (plan : List (String × Band)) (disk : List String) (ev : WriteEvent),
      ev ∈ (runSaves fitsOk pngOk log10 interp hdr resizeTo plan disk).1 →
      ev.kind = WriteKind.fits → ev.hdr = some hdr := by
  intro plan
  induction plan with
  | nil => intro disk ev hm; simp [runSaves] at hm
  | cons pb rest ih =>
    intro disk ev hm hk
    simp only [runSaves, List.mem_append] at hm
    rcases hm with hm | hm
    · exact saveImage_fits_hdr _ _ _ _ _ _ _ _ _ _ hm hk
    · exact ih _ _ hm hk

/-! ## C1: Dual-Format Persister write attempts and failure reporting -/

/-- C1 (amended): the two writes of `_save_image` live in one `try` block, so
a failing scientific-raster (FITS) write prevents the visualization (PNG)
write from being attempted at all; either failure is caught inside
`_save_image` and only printed — it is swallowed, not reported to the caller
as failing the band's persistence; and a visualization write failure does
leave a previously successful scientific-raster write on disk. -/
theorem claim_C1_persister_writes (fitsOk pngOk : String → Bool) (log10 : ℚ → ℚ)
    (interp : List (List Nat) → Nat × Nat → List (List Nat))
    (band : Band) (pfxPath : String) (hdr : Header) (resizeTo : Nat × Nat)
    (disk : List String) (o : SaveOutcome)
    (ho : o = saveImage fitsOk pngOk log10 interp band pfxPath hdr resizeTo disk) :
    (fitsOk (pfxPath ++ ".fits") = false →
      o.events = [⟨pfxPath ++ ".fits", WriteKind.fits, false, some hdr, none⟩] ∧
      o.printed = some "could not write fits" ∧
      o.disk = disk) ∧
    (∀ img, fitsOk (pfxPath ++ ".fits") = true →
      pngOk (pfxPath ++ ".png") = false →
      normalize log10 band = some img →
      o.events =
        [⟨pfxPath ++ ".fits", WriteKind.fits, true, some hdr, none⟩,
          ⟨pfxPath ++ ".png", WriteKind.png, false, none, none⟩] ∧
      o.printed = some "could not write png" ∧
      (pfxPath ++ ".fits") ∈ o.disk) := by
  subst ho
  constructor
  · intro hf
    simp [saveImage, hf]
  · intro img hf hp hn
    simp [saveImage, hf, hp, hn]

/-- Witness for C1 at concrete inputs: a failing FITS write, and a
successful FITS write followed by a failing PNG write. -/
theorem claim_C1_witness :
    ((saveImage (fun _ => false) (fun _ => true) (fun q => q) (fun i _ => i)
        [[Sample.fin 1]] "b" [] (1, 1) []).events =
      [⟨"b" ++ ".fits", WriteKind.fits, false, some [], none⟩] ∧
      (saveImage (fun _ => false) (fun _ => true) (fun q => q) (fun i _ => i)
        [[Sample.fin 1]] "b" [] (1, 1) []).printed = some "could not write fits" ∧
      (saveImage (fun _ => false) (fun _ => true) (fun q => q) (fun i _ => i)
        [[Sample.fin 1]] "b" [] (1, 1) []).disk = []) ∧
    ((saveImage (fun _ => true) (fun _ => false) (fun q => q) (fun i _ => i)
        [[Sample.fin 1]] "b" [] (1, 1) []).events =
      [⟨"b" ++ ".fits", WriteKind.fits, true, some [], none⟩,
        ⟨"b" ++ ".png", WriteKind.png, false, none, none⟩] ∧
      (saveImage (fun _ => true) (fun _ => false) (fun q => q) (fun i _ => i)
        [[Sample.fin 1]] "b" [] (1, 1) []).printed = some "could not write png" ∧
      ("b" ++ ".fits") ∈ (saveImage (fun _ => true) (fun _ => false) (fun q => q)
        (fun i _ => i) [[Sample.fin 1]] "b" [] (1, 1) []).disk) :=
  ⟨(claim_C1_persister_writes _ _ _ _ _ _ _ _ _ _ rfl).1 rfl,
   (claim_C1_persister_writes _ _ _ _ _ _ _ _ _ _ rfl).2 [[0]] rfl rfl
     (by with_unfolding_all decide)⟩

/-- Counterexample refuting C1 as stated: when the scientific-raster (FITS)
write raises, the visualization (PNG) write is never attempted — the only
write event is the failed FITS one — and the failure is merely printed,
not propagated. -/
theorem claim_C1_counterexample :
    (saveImage (fun _ => false) (fun _ => true) (fun q => q) (fun i _ => i)
      [[Sample.fin 1]] "band0" [] (1, 1) []).events.map (fun e => e.kind) =
      [WriteKind.fits] ∧
    (saveImage (fun _ => false) (fun _ => true) (fun q => q) (fun i _ => i)
      [[Sample.fin 1]] "band0" [] (1, 1) []).printed.isSome = true := by
  with_unfolding_all decide

/-! ## C2: a band-level persistence failure does not fail the file -/

/-- C2 (amended): a band-level write failure is caught and printed inside
`_save_image` and never reaches `process_file`: whenever the load/decompose
stage succeeds, `process_file` attempts the FITS write of every one of the
`1 + 3 · level-count` bands regardless of any individual write failures, and
returns `(True, "Sucesso")`. -/
theorem claim_C2_band_failures_not_fatal (fitsOk pngOk : String → Bool)
    (log10 : ℚ → ℚ) (interp : List (List Nat) → Nat × Nat → List (List Nat))
    (wavelet : String) (level : Nat) (outDir : String)
    (openResult : Except String FitsFile) (name : String)
    (t : Header × Band × DecResult) (r : ProcResult)
    (hs : stage1 wavelet level openResult = Except.ok (some t))
    (hr : r = processFile fitsOk pngOk log10 interp wavelet level outDir
      openResult name) :
    r.ok = true ∧ r.msg = "Sucesso" ∧
    r.calls.length = 1 + 3 * t.2.2.details.length ∧
    (r.events.filter (fun e => decide (e.kind = WriteKind.fits))).length =
      1 + 3 * t.2.2.details.length := by
  subst hr
  simp only [processFile, hs]
  refine ⟨by trivial, by trivial, ?_, ?_⟩
  · simp only [savePlan, List.length_cons, detailPlan_length]
    omega
  · rw [runSaves_filter_fits]
    simp only [savePlan, List.length_cons, detailPlan_length]
    omega

/-- Witness for C2 at a concrete input (with a PNG write failing for the
approximation band). -/
theorem claim_C2_witness :
    (processFile (fun _ => true) (fun p => !(p == "OUT/g/g_core_approx.png"))
      (fun q => q) (fun i _ => i) "haar" 1 "OUT"
      (Except.ok ⟨[⟨some (NDData.d2 [[Sample.fin 1, Sample.fin 2],
        [Sample.fin 3, Sample.fin 4]]), [("A", "1")]⟩]⟩) "g").ok = true ∧
    (processFile (fun _ => true) (fun p => !(p == "OUT/g/g_core_approx.png"))
      (fun q => q) (fun i _ => i) "haar" 1 "OUT"
      (Except.ok ⟨[⟨some (NDData.d2 [[Sample.fin 1, Sample.fin 2],
        [Sample.fin 3, Sample.fin 4]]), [("A", "1")]⟩]⟩) "g").msg = "Sucesso" ∧
    (processFile (fun _ => true) (fun p => !(p == "OUT/g/g_core_approx.png"))
      (fun q => q) (fun i _ => i) "haar" 1 "OUT"
      (Except.ok ⟨[⟨some (NDData.d2 [[Sample.fin 1, Sample.fin 2],
        [Sample.fin 3, Sample.fin 4]]), [("A", "1")]⟩]⟩) "g").calls.length =
      1 + 3 * 1 ∧
    ((processFile (fun _ => true) (fun p => !(p == "OUT/g/g_core_approx.png"))
      (fun q => q) (fun i _ => i) "haar" 1 "OUT"
      (Except.ok ⟨[⟨some (NDData.d2 [[Sample.fin 1, Sample.fin 2],
        [Sample.fin 3, Sample.fin 4]]), [("A", "1")]⟩]⟩) "g").events.filter
      (fun e => decide (e.kind = WriteKind.fits))).length = 1 + 3 * 1 :=
  claim_C2_band_failures_not_fatal _ _ _ _ _ _ _ _ _
    ([("A", "1")], [[Sample.fin 1, Sample.fin 2], [Sample.fin 3, Sample.fin 4]],
      ⟨(wavedec2 [1, 1] [-1, 1] 1 [[Sample.fin 1, Sample.fin 2],
          [Sample.fin 3, Sample.fin 4]]).1,
        (wavedec2 [1, 1] [-1, 1] 1 [[Sample.fin 1, Sample.fin 2],
          [Sample.fin 3, Sample.fin 4]]).2, false⟩) _
    (by with_unfolding_all rfl) rfl

/-- Counterexample refuting C2 as stated: the PNG write of the approximation
band fails, yet the remaining bands are still persisted (eight write events,
with the later FITS writes succeeding) and `process_file` returns
`(True, "Sucesso")`, not `(False, message)`. -/
theorem claim_C2_counterexample :
    (processFile (fun _ => true) (fun p => !(p == "OUT/g/g_core_approx.png"))
      (fun q => q) (fun i _ => i) "haar" 1 "OUT"
      (Except.ok ⟨[⟨some (NDData.d2 [[Sample.fin 1, Sample.fin 2],
        [Sample.fin 3, Sample.fin 4]]), [("A", "1")]⟩]⟩) "g").ok = true ∧
    (processFile (fun _ => true) (fun p => !(p == "OUT/g/g_core_approx.png"))
      (fun q => q) (fun i _ => i) "haar" 1 "OUT"
      (Except.ok ⟨[⟨some (NDData.d2 [[Sample.fin 1, Sample.fin 2],
        [Sample.fin 3, Sample.fin 4]]), [("A", "1")]⟩]⟩) "g").msg = "Sucesso" ∧
    (processFile (fun _ => true) (fun p => !(p == "OUT/g/g_core_approx.png"))
      (fun q => q) (fun i _ => i) "haar" 1 "OUT"
      (Except.ok ⟨[⟨some (NDData.d2 [[Sample.fin 1, Sample.fin 2],
        [Sample.fin 3, Sample.fin 4]]), [("A", "1")]⟩]⟩) "g").events.map
      (fun e => (e.kind, e.ok)) =
      [(WriteKind.fits, true), (WriteKind.png, false),
       (WriteKind.fits, true), (WriteKind.png, true),
       (WriteKind.fits, true), (WriteKind.png, true),
       (WriteKind.fits, true), (WriteKind.png, true)] := by
  with_unfolding_all decide

/-! ## C3: decompose error behavior -/

/-- C3 (amended): the decomposition raises an error (surfaced as that file's
failure) when `wavelet_kind` is not a recognized filter pair, but a `level`
exceeding what the raster's size supports does NOT raise: pywt only emits a
`UserWarning` — suppressed by the `warnings.filterwarnings` call at line 12
of `wavelet.py` — and the decomposition still runs and succeeds. -/
theorem claim_C3_decompose_errors (w : String) (level : Nat) (m : Band) :
    (waveletFilters w = none →
      wavedec2E w level m = Except.error ("Unknown wavelet name " ++ w)) ∧
    (∀ fp, waveletFilters w = some fp →
      dwtMaxLevel (min (dims m).1 (dims m).2) fp.1.length < level →
      wavedec2E w level m =
        Except.ok ⟨(wavedec2 fp.1 fp.2 level m).1,
          (wavedec2 fp.1 fp.2 level m).2, true⟩) := by
  constructor
  · intro h
    simp [wavedec2E, h]
  · intro fp hfp hlev
    simp [wavedec2E, hfp, hlev]

/-- Witness for C3: an unknown wavelet name errors; an excessive level on a
1×1 raster (max supported level 0) still returns successfully, flagged only
with the suppressed warning. -/
theorem claim_C3_witness :
    wavedec2E "nosuch" 1 [[Sample.fin 0]] =
      Except.error ("Unknown wavelet name " ++ "nosuch") ∧
    wavedec2E "haar" 4 [[Sample.fin 0]] =
      Except.ok ⟨(wavedec2 [1, 1] [-1, 1] 4 [[Sample.fin 0]]).1,
        (wavedec2 [1, 1] [-1, 1] 4 [[Sample.fin 0]]).2, true⟩ :=
  ⟨(claim_C3_decompose_errors "nosuch" 1 [[Sample.fin 0]]).1 rfl,
   (claim_C3_decompose_errors "haar" 4 [[Sample.fin 0]]).2 ([1, 1], [-1, 1]) rfl
     (by decide)⟩

/-- Counterexample refuting C3 as stated: a 2×2 raster with haar filters
supports at most level 1, yet requesting level 4 raises no error — the
decomposition returns `ok`. -/
theorem claim_C3_counterexample :
    dwtMaxLevel (min (dims [[Sample.fin 1, Sample.fin 2],
        [Sample.fin 3, Sample.fin 4]]).1
      (dims [[Sample.fin 1, Sample.fin 2],
        [Sample.fin 3, Sample.fin 4]]).2) 2 = 1 ∧
    (wavedec2E "haar" 4 [[Sample.fin 1, Sample.fin 2],
      [Sample.fin 3, Sample.fin 4]]).isOk = true := by
  with_unfolding_all decide

/-! ## C4: batch failure isolation -/

lemma stage1_error (wavelet : String) (level : Nat) (e : String) :
    stage1 wavelet level (Except.error e) = Except.error e := rfl

/-- C4: any exception raised while processing one file of a batch is caught
at the file boundary and converted into a `(False, errorMessage)` result, and
every file of the batch is still processed: the j-th batch result is exactly
the `processFile` outcome of the j-th file, independent of other files. -/
theorem claim_C4_batch_isolation (fitsOk pngOk : String → Bool) (log10 : ℚ → ℚ)
    (interp : List (List Nat) → Nat × Nat → List (List Nat))
    (wavelet : String) (level : Nat) (outDir : String)
    (files : List (String × Except String FitsFile)) (i : Nat)
    (pr : String × Except String FitsFile) (e : String)
    (hget : files[i]? = some pr) (herr : pr.2 = Except.error e) :
    (runBatch fitsOk pngOk log10 interp wavelet level outDir files).length =
      files.length ∧
    (runBatch fitsOk pngOk log10 interp wavelet level outDir files)[i]? =
      some (pr.1, false, e) ∧
    (∀ (j : Nat) (q : String × Except String FitsFile), files[j]? = some q →
      (runBatch fitsOk pngOk log10 interp wavelet level outDir files)[j]? =
        some (q.1,
          (processFile fitsOk pngOk log10 interp wavelet level outDir
            q.2 q.1).ok,
          (processFile fitsOk pngOk log10 interp wavelet level outDir
            q.2 q.1).msg)) := by
  refine ⟨by simp [runBatch], ?_, ?_⟩
  · have hpf : processFile fitsOk pngOk log10 interp wavelet level outDir
        pr.2 pr.1 = ⟨false, e, [], [], []⟩ := by
      rw [herr]
      simp only [processFile, stage1_error]
    simp only [runBatch]
    rw [List.getElem?_map, hget]
    simp only [Option.map_some']
    rw [hpf]
  · intro j q hq
    simp only [runBatch]
    rw [List.getElem?_map, hq]
    simp only [Option.map_some']

/-- Witness for C4: a two-file batch whose second file fails to open; the
failure is reported as `(false, message)` and the first file is still
processed normally. -/
theorem claim_C4_witness :
    (runBatch (fun _ => true) (fun _ => true) (fun q => q) (fun i _ => i)
      "haar" 1 "OUT"
      [("a", Except.ok ⟨[⟨some (NDData.d2 [[Sample.fin 6]]), []⟩]⟩),
       ("bad", Except.error "unreadable")]).length = 2 ∧
    (runBatch (fun _ => true) (fun _ => true) (fun q => q) (fun i _ => i)
      "haar" 1 "OUT"
      [("a", Except.ok ⟨[⟨some (NDData.d2 [[Sample.fin 6]]), []⟩]⟩),
       ("bad", Except.error "unreadable")])[1]? =
      some ("bad", false, "unreadable") ∧
    (runBatch (fun _ => true) (fun _ => true) (fun q => q) (fun i _ => i)
      "haar" 1 "OUT"
      [("a", Except.ok ⟨[⟨some (NDData.d2 [[Sample.fin 6]]), []⟩]⟩),
       ("bad", Except.error "unreadable")])[0]? =
      some ("a",
        (processFile (fun _ => true) (fun _ => true) (fun q => q)
          (fun i _ => i) "haar" 1 "OUT"
          (Except.ok ⟨[⟨some (NDData.d2 [[Sample.fin 6]]), []⟩]⟩) "a").ok,
        (processFile (fun _ => true) (fun _ => true) (fun q => q)
          (fun i _ => i) "haar" 1 "OUT"
          (Except.ok ⟨[⟨some (NDData.d2 [[Sample.fin 6]]), []⟩]⟩) "a").msg) := by
  refine ⟨?_, ?_, ?_⟩
  · exact (claim_C4_batch_isolation (fun _ => true) (fun _ => true)
      (fun q => q) (fun i _ => i) "haar" 1 "OUT"
      [("a", Except.ok ⟨[⟨some (NDData.d2 [[Sample.fin 6]]), []⟩]⟩),
       ("bad", Except.error "unreadable")] 1
      ("bad", Except.error "unreadable") "unreadable" rfl rfl).1
  · exact (claim_C4_batch_isolation (fun _ => true) (fun _ => true)
      (fun q => q) (fun i _ => i) "haar" 1 "OUT"
      [("a", Except.ok ⟨[⟨some (NDData.d2 [[Sample.fin 6]]), []⟩]⟩),
       ("bad", Except.error "unreadable")] 1
      ("bad", Except.error "unreadable") "unreadable" rfl rfl).2.1
  · exact (claim_C4_batch_isolation (fun _ => true) (fun _ => true)
      (fun q => q) (fun i _ => i) "haar" 1 "OUT"
      [("a", Except.ok ⟨[⟨some (NDData.d2 [[Sample.fin 6]]), []⟩]⟩),
       ("bad", Except.error "unreadable")] 1
      ("bad", Except.error "unreadable") "unreadable" rfl rfl).2.2 0
      ("a", Except.ok ⟨[⟨some (NDData.d2 [[Sample.fin 6]]), []⟩]⟩) rfl

/-! ## C8: the message reported for an absent raster -/

/-- C8 (amended): when the loaded file contains no raster data (the primary
HDU has no data and the second HDU, consulted as a fallback, has none
either), `process_file` fails for that file with exactly the message
"FITS vazio" (Portuguese, "empty FITS") — not "empty raster" — and attempts
no writes. -/
theorem claim_C8_empty_raster_message (fitsOk pngOk : String → Bool)
    (log10 : ℚ → ℚ) (interp : List (List Nat) → Nat × Nat → List (List Nat))
    (wavelet : String) (level : Nat) (outDir : String) (name : String)
    (f : FitsFile) (h0 h1 : FileHDU)
    (h0get : f.hdus[0]? = some h0) (h0d : h0.data = none)
    (h1get : f.hdus[1]? = some h1) (h1d : h1.data = none) :
    processFile fitsOk pngOk log10 interp wavelet level outDir
      (Except.ok f) name = ⟨false, "FITS vazio", [], [], []⟩ := by
  have hl : loadData f = Except.ok (none, h0.header) := by
    simp [loadData, h0get, h0d, h1get, h1d]
  have hs : stage1 wavelet level (Except.ok f) = Except.ok none := by
    simp [stage1, hl]
  simp [processFile, hs]

/-- Witness for C8 at a concrete input. -/
theorem claim_C8_witness :
    processFile (fun _ => true) (fun _ => true) (fun q => q) (fun i _ => i)
      "haar" 1 "OUT"
      (Except.ok ⟨[⟨none, [("K", "V")]⟩, ⟨none, []⟩]⟩) "g" =
      ⟨false, "FITS vazio", [], [], []⟩ :=
  claim_C8_empty_raster_message (fun _ => true) (fun _ => true) (fun q => q)
    (fun i _ => i) "haar" 1 "OUT" "g" ⟨[⟨none, [("K", "V")]⟩, ⟨none, []⟩]⟩
    ⟨none, [("K", "V")]⟩ ⟨none, []⟩ rfl rfl rfl rfl

/-- Counterexample refuting C8 as stated: the failure message for an absent
raster is "FITS vazio", not the claimed "empty raster". -/
theorem claim_C8_counterexample :
    (processFile (fun _ => true) (fun _ => true) (fun q => q) (fun i _ => i)
      "haar" 1 "OUT" (Except.ok ⟨[⟨none, []⟩, ⟨none, []⟩]⟩) "g").ok = false ∧
    (processFile (fun _ => true) (fun _ => true) (fun q => q) (fun i _ => i)
      "haar" 1 "OUT" (Except.ok ⟨[⟨none, []⟩, ⟨none, []⟩]⟩) "g").msg =
      "FITS vazio" ∧
    (processFile (fun _ => true) (fun _ => true) (fun q => q) (fun i _ => i)
      "haar" 1 "OUT" (Except.ok ⟨[⟨none, []⟩, ⟨none, []⟩]⟩) "g").msg ≠
      "empty raster" := by
  with_unfolding_all decide

/-! ## C10: the header attached to persisted bands -/

/-- C10: when the primary HDU contains no data, the raster is taken from the
second HDU, but the metadata header attached to every persisted lossless
(FITS) band of the file is still the primary HDU's header — never the second
HDU's — and this same single per-file header is attached to every band's
lossless output; the bands passed to the persister are exactly the
decomposition of the second HDU's raster. -/
theorem claim_C10_header_primary (fitsOk pngOk : String → Bool)
    (log10 : ℚ → ℚ) (interp : List (List Nat) → Nat × Nat → List (List Nat))
    (w : String) (level : Nat) (outDir : String) (name : String)
    (f : FitsFile) (h0 h1 : FileHDU) (b : Band) (fp : List ℚ × List ℚ)
    (r : ProcResult)
    (h0get : f.hdus[0]? = some h0) (h0d : h0.data = none)
    (h1get : f.hdus[1]? = some h1) (h1d : h1.data = some (NDData.d2 b))
    (hw : waveletFilters w = some fp)
    (hr : r = processFile fitsOk pngOk log10 interp w level outDir
      (Except.ok f) name) :
    r.ok = true ∧ r.msg = "Sucesso" ∧
    r.calls.map (fun c => c.2) =
      (wavedec2 fp.1 fp.2 level b).1 ::
        flattenTriples (wavedec2 fp.1 fp.2 level b).2 ∧
    ∀ ev ∈ r.events, ev.kind = WriteKind.fits → ev.hdr = some h0.header := by
  have hl : loadData f = Except.ok (some (NDData.d2 b), h0.header) := by
    simp [loadData, h0get, h0d, h1get, h1d]
  have hs : stage1 w level (Except.ok f) =
      Except.ok (some (h0.header, b,
        ⟨(wavedec2 fp.1 fp.2 level b).1, (wavedec2 fp.1 fp.2 level b).2,
          if dwtMaxLevel (min (dims b).1 (dims b).2) fp.1.length < level
            then true else false⟩)) := by
    simp [stage1, hl, collapse2D, wavedec2E, hw]
  subst hr
  simp only [processFile, hs]
  refine ⟨by trivial, by trivial, ?_, ?_⟩
  · simp only [savePlan, List.map_cons, detailPlan_bands]
  · intro ev hm hk
    exact runSaves_fits_hdr _ _ _ _ _ _ _ _ _ hm hk

/-- Witness for C10 at a concrete input: the primary HDU has header
`[("A", "1")]` and no data, the second HDU carries the raster and a
different header `[("B", "2")]`. -/
theorem claim_C10_witness :
    (processFile (fun _ => true) (fun _ => true) (fun q => q) (fun i _ => i)
      "haar" 1 "OUT"
      (Except.ok ⟨[⟨none, [("A", "1")]⟩,
        ⟨some (NDData.d2 [[Sample.fin 1, Sample.fin 2],
          [Sample.fin 3, Sample.fin 4]]), [("B", "2")]⟩]⟩) "g").ok = true ∧
    (processFile (fun _ => true) (fun _ => true) (fun q => q) (fun i _ => i)
      "haar" 1 "OUT"
      (Except.ok ⟨[⟨none, [("A", "1")]⟩,
        ⟨some (NDData.d2 [[Sample.fin 1, Sample.fin 2],
          [Sample.fin 3, Sample.fin 4]]), [("B", "2")]⟩]⟩) "g").msg =
      "Sucesso" ∧
    (processFile (fun _ => true) (fun _ => true) (fun q => q) (fun i _ => i)
      "haar" 1 "OUT"
      (Except.ok ⟨[⟨none, [("A", "1")]⟩,
        ⟨some (NDData.d2 [[Sample.fin 1, Sample.fin 2],
          [Sample.fin 3, Sample.fin 4]]), [("B", "2")]⟩]⟩) "g").calls.map
      (fun c => c.2) =
      (wavedec2 [1, 1] [-1, 1] 1 [[Sample.fin 1, Sample.fin 2],
        [Sample.fin 3, Sample.fin 4]]).1 ::
        flattenTriples (wavedec2 [1, 1] [-1, 1] 1 [[Sample.fin 1, Sample.fin 2],
          [Sample.fin 3, Sample.fin 4]]).2 ∧
    ∀ ev ∈ (processFile (fun _ => true) (fun _ => true) (fun q => q)
      (fun i _ => i) "haar" 1 "OUT"
      (Except.ok ⟨[⟨none, [("A", "1")]⟩,
        ⟨some (NDData.d2 [[Sample.fin 1, Sample.fin 2],
          [Sample.fin 3, Sample.fin 4]]), [("B", "2")]⟩]⟩) "g").events,
      ev.kind = WriteKind.fits → ev.hdr = some [("A", "1")] :=
  claim_C10_header_primary (fun _ => true) (fun _ => true) (fun q => q)
    (fun i _ => i) "haar" 1 "OUT" "g"
    ⟨[⟨none, [("A", "1")]⟩,
      ⟨some (NDData.d2 [[Sample.fin 1, Sample.fin 2],
        [Sample.fin 3, Sample.fin 4]]), [("B", "2")]⟩]⟩ ⟨none, [("A", "1")]⟩
    ⟨some (NDData.d2 [[Sample.fin 1, Sample.fin 2],
      [Sample.fin 3, Sample.fin 4]]), [("B", "2")]⟩
    [[Sample.fin 1, Sample.fin 2], [Sample.fin 3, Sample.fin 4]]
    ([1, 1], [-1, 1]) _ rfl rfl rfl rfl rfl rfl

/-! ## C9: structure and shapes of the decomposition -/

lemma dims_mkMat (r c : Nat) (g : Nat → Nat → Sample) (h : 0 < r) :
    dims (mkMat r c g) = (r, c) := by
  obtain ⟨p, rfl⟩ : ∃ p, r = p + 1 := ⟨r - 1, by omega⟩
  simp [dims, mkMat, List.range_succ_eq_map]

lemma half_le_dwtOutLen (n f : Nat) (hf : 1 ≤ f) : n / 2 ≤ dwtOutLen n f := by
  unfold dwtOutLen
  apply Nat.div_le_div_right
  omega

lemma dwtOutLen_pos (n f : Nat) (hf : 2 ≤ f) (hn : 1 ≤ n) :
    0 < dwtOutLen n f := by
  have h := (Nat.le_div_iff_mul_le (by norm_num : 0 < 2)).2
    (by omega : 1 * 2 ≤ n + f - 1)
  exact h

lemma dwtOutLen_lt (n f : Nat) (hf : 2 ≤ f) (hn : f ≤ n) : dwtOutLen n f < n := by
  unfold dwtOutLen
  rw [Nat.div_lt_iff_lt_mul (by norm_num : 0 < 2)]
  omega

lemma lenIter_lower (f : Nat) (hf : 2 ≤ f) :
    ∀ (i L n : Nat), i ≤ L → (f - 1) * 2 ^ L ≤ n →
      (f - 1) * 2 ^ (L - i) ≤ lenIter f i n := by
  intro i
  induction i with
  | zero =>
    intro L n hiL hn
    simpa [lenIter] using hn
  | succ k ih =>
    intro L n hiL hn
    obtain ⟨M, rfl⟩ : ∃ M, L = M + 1 := ⟨L - 1, by omega⟩
    have h1 : (f - 1) * 2 ^ M ≤ n / 2 := by
      rw [Nat.le_div_iff_mul_le (by norm_num : 0 < 2)]
      have h2 : (f - 1) * 2 ^ (M + 1) = (f - 1) * 2 ^ M * 2 := by ring
      omega
    have h2 : (f - 1) * 2 ^ M ≤ dwtOutLen n f :=
      le_trans h1 (half_le_dwtOutLen n f (by omega))
    have h3 := ih M (dwtOutLen n f) (by omega) h2
    simpa [lenIter, Nat.succ_sub_succ] using h3

lemma lenIter_succ_right (f : Nat) :
    ∀ (i n : Nat), lenIter f (i + 1) n = dwtOutLen (lenIter f i n) f := by
  intro i
  induction i with
  | zero => intro n; rfl
  | succ k ih => intro n; exact ih (dwtOutLen n f)

lemma lenIter_strict (f : Nat) (hf : 2 ≤ f) (L n : Nat)
    (hn : (f - 1) * 2 ^ L ≤ n) :
    ∀ i, i < L → lenIter f (i + 1) n < lenIter f i n := by
  intro i hi
  have hlow := lenIter_lower f hf i L n (by omega) hn
  have hfle : f ≤ lenIter f i n := by
    have h2 : 2 ≤ 2 ^ (L - i) := by
      have h3 : 1 ≤ L - i := by omega
      calc 2 = 2 ^ 1 := by norm_num
        _ ≤ 2 ^ (L - i) := Nat.pow_le_pow_right (by norm_num) h3
    have h4 : (f - 1) * 2 ≤ (f - 1) * 2 ^ (L - i) := Nat.mul_le_mul_left _ h2
    omega
  rw [lenIter_succ_right]
  exact dwtOutLen_lt _ f hf hfle

lemma support_mult (f L n : Nat) (hf : 2 ≤ f) (hL : 1 ≤ L)
    (h : L ≤ dwtMaxLevel n f) : (f - 1) * 2 ^ L ≤ n := by
  unfold dwtMaxLevel at h
  rw [if_neg (by omega : ¬ f ≤ 1), log2floor_eq_log] at h
  have hx : n / (f - 1) ≠ 0 := by
    intro h0
    rw [h0, Nat.log_zero_right] at h
    omega
  have h2 : 2 ^ L ≤ n / (f - 1) :=
    (Nat.pow_le_iff_le_log (by norm_num) hx).2 h
  have h3 := (Nat.le_div_iff_mul_le (by omega : 0 < f - 1)).1 h2
  calc (f - 1) * 2 ^ L = 2 ^ L * (f - 1) := by ring
    _ ≤ n := h3

lemma dims_dwt2 (lo hi : List ℚ) (m : Band) (hf : 2 ≤ lo.length)
    (hr : 1 ≤ (dims m).1) :
    dims (dwt2 lo hi m).1 =
      (dwtOutLen (dims m).1 lo.length, dwtOutLen (dims m).2 lo.length) ∧
    dims (dwt2 lo hi m).2.1 =
      (dwtOutLen (dims m).1 lo.length, dwtOutLen (dims m).2 lo.length) ∧
    dims (dwt2 lo hi m).2.2.1 =
      (dwtOutLen (dims m).1 lo.length, dwtOutLen (dims m).2 lo.length) ∧
    dims (dwt2 lo hi m).2.2.2 =
      (dwtOutLen (dims m).1 lo.length, dwtOutLen (dims m).2 lo.length) := by
  have hpos : 0 < dwtOutLen (dims m).1 lo.length := dwtOutLen_pos _ _ hf hr
  exact ⟨dims_mkMat _ _ _ hpos, dims_mkMat _ _ _ hpos,
    dims_mkMat _ _ _ hpos, dims_mkMat _ _ _ hpos⟩

lemma wavedec2_struct (lo hi : List ℚ) (hf : 2 ≤ lo.length) :
    ∀ (L : Nat) (m : Band),
      (lo.length - 1) * 2 ^ L ≤ (dims m).1 →
      (lo.length - 1) * 2 ^ L ≤ (dims m).2 →
      ((wavedec2 lo hi L m).2.length = L ∧
       dims (wavedec2 lo hi L m).1 = shapeIter lo.length L (dims m) ∧
       ∀ (i : Nat) (t : Band × Band × Band),
         (wavedec2 lo hi L m).2[i]? = some t →
         dims t.1 = shapeIter lo.length (L - i) (dims m) ∧
         dims t.2.1 = shapeIter lo.length (L - i) (dims m) ∧
         dims t.2.2 = shapeIter lo.length (L - i) (dims m)) := by
  intro L
  induction L with
  | zero =>
    intro m h1 h2
    refine ⟨rfl, rfl, ?_⟩
    intro i t ht
    simp [wavedec2] at ht
  | succ L ih =>
    intro m h1 h2
    have hp2 : 2 ≤ 2 ^ (L + 1) := by
      calc 2 = 2 ^ 1 := by norm_num
        _ ≤ 2 ^ (L + 1) := Nat.pow_le_pow_right (by norm_num) (by omega)
    have hf1 : 1 ≤ lo.length - 1 := by omega
    have hr2 : 2 ≤ (dims m).1 := by
      have := Nat.mul_le_mul hf1 hp2
      omega
    have hc2 : 2 ≤ (dims m).2 := by
      have := Nat.mul_le_mul hf1 hp2
      omega
    have hd := dims_dwt2 lo hi m hf (by omega)
    have hhalf1 : (lo.length - 1) * 2 ^ L ≤ dwtOutLen (dims m).1 lo.length := by
      refine le_trans ?_ (half_le_dwtOutLen _ _ (by omega))
      rw [Nat.le_div_iff_mul_le (by norm_num : 0 < 2)]
      have h3 : (lo.length - 1) * 2 ^ (L + 1) = (lo.length - 1) * 2 ^ L * 2 := by
        ring
      omega
    have hhalf2 : (lo.length - 1) * 2 ^ L ≤ dwtOutLen (dims m).2 lo.length := by
      refine le_trans ?_ (half_le_dwtOutLen _ _ (by omega))
      rw [Nat.le_div_iff_mul_le (by norm_num : 0 < 2)]
      have h3 : (lo.length - 1) * 2 ^ (L + 1) = (lo.length - 1) * 2 ^ L * 2 := by
        ring
      omega
    have hihr : (lo.length - 1) * 2 ^ L ≤ (dims (dwt2 lo hi m).1).1 := by
      rw [hd.1]
      exact hhalf1
    have hihc : (lo.length - 1) * 2 ^ L ≤ (dims (dwt2 lo hi m).1).2 := by
      rw [hd.1]
      exact hhalf2
    obtain ⟨ihlen, ihapprox, ihtriples⟩ := ih (dwt2 lo hi m).1 hihr hihc
    refine ⟨?_, ?_, ?_⟩
    · show ((wavedec2 lo hi L (dwt2 lo hi m).1).2 ++
        [((dwt2 lo hi m).2.1, (dwt2 lo hi m).2.2.1,
          (dwt2 lo hi m).2.2.2)]).length = L + 1
      simp [ihlen]
    · show dims (wavedec2 lo hi L (dwt2 lo hi m).1).1 =
        shapeIter lo.length (L + 1) (dims m)
      rw [ihapprox, hd.1]
      rfl
    · intro i t ht
      replace ht : ((wavedec2 lo hi L (dwt2 lo hi m).1).2 ++
        [((dwt2 lo hi m).2.1, (dwt2 lo hi m).2.2.1,
          (dwt2 lo hi m).2.2.2)])[i]? = some t := ht
      have hlen : i < L + 1 := by
        have := List.getElem?_eq_some.1 ht
        obtain ⟨hb, -⟩ := this
        simpa [ihlen] using hb
      by_cases hiL : i = L
      · subst hiL
        have hcl : ((wavedec2 lo hi i (dwt2 lo hi m).1).2 ++
            [((dwt2 lo hi m).2.1, (dwt2 lo hi m).2.2.1,
              (dwt2 lo hi m).2.2.2)])[(wavedec2 lo hi i
                (dwt2 lo hi m).1).2.length]? =
            some ((dwt2 lo hi m).2.1, (dwt2 lo hi m).2.2.1,
              (dwt2 lo hi m).2.2.2) :=
          List.getElem?_concat_length _ _
        rw [ihlen] at hcl
        rw [hcl] at ht
        obtain rfl : ((dwt2 lo hi m).2.1, (dwt2 lo hi m).2.2.1,
            (dwt2 lo hi m).2.2.2) = t := by
          injection ht
        have hsimp : i + 1 - i = 1 := by omega
        rw [hsimp]
        refine ⟨?_, ?_, ?_⟩
        · rw [hd.2.1]; rfl
        · rw [hd.2.2.1]; rfl
        · rw [hd.2.2.2]; rfl
      · have hilt : i < L := by omega
        have hget : ((wavedec2 lo hi L (dwt2 lo hi m).1).2 ++
            [((dwt2 lo hi m).2.1, (dwt2 lo hi m).2.2.1,
              (dwt2 lo hi m).2.2.2)])[i]? =
            (wavedec2 lo hi L (dwt2 lo hi m).1).2[i]? :=
          List.getElem?_append_left (by rw [ihlen]; omega)
        rw [hget] at ht
        obtain ⟨d1, d2, d3⟩ := ihtriples i t ht
        have harith : L + 1 - i = (L - i) + 1 := by omega
        rw [harith]
        have hshape : ∀ k, shapeIter lo.length (k + 1) (dims m) =
            shapeIter lo.length k (dims (dwt2 lo hi m).1) := by
          intro k
          rw [hd.1]
          rfl
        rw [hshape (L - i)]
        exact ⟨d1, d2, d3⟩

/-- C9: for every raster and level `L ≥ 1` that the raster's size supports
(in pywt's sense, `L ≤ dwt_max_level`), `decompose` returns exactly one
approximation plus exactly `L` detail triples ordered from coarsest to
finest: the i-th triple (0-indexed) carries level index `L - i`, i.e. its
bands have the shape obtained by `L - i` single-level DWT steps; shapes
strictly shrink from finest to coarsest; and the approximation's shape
equals the coarsest (0-th) detail triple's shape. -/
theorem claim_C9_decompose_structure (lo hi : List ℚ) (L : Nat) (m : Band)
    (hf : 2 ≤ lo.length) (hL : 1 ≤ L)
    (hsup : L ≤ dwtMaxLevel (min (dims m).1 (dims m).2) lo.length) :
    (wavedec2 lo hi L m).2.length = L ∧
    dims (wavedec2 lo hi L m).1 = shapeIter lo.length L (dims m) ∧
    (∀ (i : Nat) (t : Band × Band × Band),
      (wavedec2 lo hi L m).2[i]? = some t →
      dims t.1 = shapeIter lo.length (L - i) (dims m) ∧
      dims t.2.1 = shapeIter lo.length (L - i) (dims m) ∧
      dims t.2.2 = shapeIter lo.length (L - i) (dims m)) ∧
    (∀ i, i < L →
      (shapeIter lo.length (i + 1) (dims m)).1 <
        (shapeIter lo.length i (dims m)).1 ∧
      (shapeIter lo.length (i + 1) (dims m)).2 <
        (shapeIter lo.length i (dims m)).2) := by
  have hmul : (lo.length - 1) * 2 ^ L ≤ min (dims m).1 (dims m).2 :=
    support_mult lo.length L _ hf hL hsup
  have h1 : (lo.length - 1) * 2 ^ L ≤ (dims m).1 :=
    le_trans hmul (min_le_left _ _)
  have h2 : (lo.length - 1) * 2 ^ L ≤ (dims m).2 :=
    le_trans hmul (min_le_right _ _)
  obtain ⟨hlen, happrox, htriples⟩ := wavedec2_struct lo hi hf L m h1 h2
  refine ⟨hlen, happrox, htriples, ?_⟩
  intro i hi
  exact ⟨lenIter_strict lo.length hf L _ h1 i hi,
    lenIter_strict lo.length hf L _ h2 i hi⟩

/-- Witness for C9 at a concrete input: a 4×4 constant raster with the haar
filter pair at level 2 (its maximal supported level). -/
theorem claim_C9_witness :
    ((wavedec2 [1, 1] [-1, 1] 2 (List.replicate 4
      (List.replicate 4 (Sample.fin 1)))).2.length = 2 ∧
    dims (wavedec2 [1, 1] [-1, 1] 2 (List.replicate 4
      (List.replicate 4 (Sample.fin 1)))).1 =
      shapeIter 2 2 (dims (List.replicate 4
        (List.replicate 4 (Sample.fin 1)))) ∧
    (∀ (i : Nat) (t : Band × Band × Band),
      (wavedec2 [1, 1] [-1, 1] 2 (List.replicate 4
        (List.replicate 4 (Sample.fin 1)))).2[i]? = some t →
      dims t.1 = shapeIter 2 (2 - i) (dims (List.replicate 4
        (List.replicate 4 (Sample.fin 1)))) ∧
      dims t.2.1 = shapeIter 2 (2 - i) (dims (List.replicate 4
        (List.replicate 4 (Sample.fin 1)))) ∧
      dims t.2.2 = shapeIter 2 (2 - i) (dims (List.replicate 4
        (List.replicate 4 (Sample.fin 1))))) ∧
    (∀ i, i < 2 →
      (shapeIter 2 (i + 1) (dims (List.replicate 4
        (List.replicate 4 (Sample.fin 1))))).1 <
        (shapeIter 2 i (dims (List.replicate 4
          (List.replicate 4 (Sample.fin 1))))).1 ∧
      (shapeIter 2 (i + 1) (dims (List.replicate 4
        (List.replicate 4 (Sample.fin 1))))).2 <
        (shapeIter 2 i (dims (List.replicate 4
          (List.replicate 4 (Sample.fin 1))))).2)) :=
  claim_C9_decompose_structure [1, 1] [-1, 1] 2
    (List.replicate 4 (List.replicate 4 (Sample.fin 1)))
    (by decide) (by decide) (by decide)

end Galwave
